import Mathlib

/-!
Shallow embedding of the course repository's notebook code.

Sources embedded here:
* `src/langchain/6_Tools/1_tools_basics.ipynb` — the two `@tool` functions, the
  `tool_mapping` dictionary, the manual tool-routing `for` loop, and the
  agent-construction call configuring the ReAct agent.
* `src/unnamed/part_001` (the RAG notebook) — the overview RAG chain, the manual
  retrieval-plus-prompt-plus-LLM cell, and the `cosine_similarity` function.
* `src/langchain/1_Basics/1-openai-code.ipynb` — the API-key startup cell.

External services (the OpenAI chat API, the Chroma vector store, the embedding
API, LangChain runnables) are modelled as abstract function parameters; only
code authored in the repository is given a concrete definition.  Python strings
are modelled as `String`, or as `List Char` where character-level slicing or
lowercasing matters; NumPy float vectors are modelled as `List ℝ`.
-/

/-! ## Tools notebook: `src/langchain/6_Tools/1_tools_basics.ipynb` -/

/-- The `@tool`-decorated `fake_weather_api(city)` from the tools notebook:
ignores its argument and returns a fixed string. -/
def fake_weather_api (city : String) : String := "Sunny, 22°C"

/-- The `@tool`-decorated `outdoor_seating_availability(city)` from the tools
notebook: ignores its argument and returns a fixed string. -/
def outdoor_seating_availability (city : String) : String :=
  "Outdoor seating is available."

/-- One entry of `result.tool_calls`: a name, the argument value (the notebook's
tools take a single `city` string argument), and the call id. -/
structure ToolCall where
  name : String
  args : String
  id : String
  deriving DecidableEq

/-- A LangChain `ToolMessage(tool_output, tool_call_id=...)` as appended by the
notebook's routing loop. -/
structure ToolMessage where
  content : String
  tool_call_id : String
  deriving DecidableEq

/-- The notebook's `tool_mapping` dictionary, an association from tool name to
tool function. -/
def tool_mapping : List (String × (String → String)) :=
  [("fake_weather_api", fake_weather_api),
   ("outdoor_seating_availability", outdoor_seating_availability)]

/-- Python's `str.lower()` on the ASCII strings involved: lower-case every
character. -/
def py_lower (s : String) : String := String.mk (s.toList.map Char.toLower)

/-- Python dictionary subscription `mapping[key]` on an association list:
`some` of the mapped value, `none` when the key is absent (a `KeyError`). -/
def dict_get (mapping : List (String × (String → String))) (key : String) :
    Option (String → String) :=
  (mapping.find? (fun p => p.1 == key)).map Prod.snd

/-- The notebook's manual routing loop
`for tool_call in result.tool_calls: ...`, state-passing form.  For each tool
call in order it looks up `tool_mapping[tool_call["name"].lower()]` (aborting
with `none` on a missing key, Python's `KeyError`), invokes the tool on the
call's arguments, and appends `ToolMessage(tool_output, tool_call_id=...)` to
`messages`.  The extra `trace` component records each tool invocation issued
(lowered name, arguments) in order. -/
def run_tool_loop (mapping : List (String × (String → String))) :
    List ToolCall → List ToolMessage → List (String × String) →
      Option (List ToolMessage × List (String × String))
  | [], messages, trace => some (messages, trace)
  | c :: rest, messages, trace =>
    match dict_get mapping (py_lower c.name) with
    | none => none
    | some tool =>
      run_tool_loop mapping rest (messages ++ [⟨tool c.args, c.id⟩])
        (trace ++ [(py_lower c.name, c.args)])

/-- The content of `result.tool_calls` recorded in the notebook's output for the
question about weather and outdoor seats in Bangalore. -/
def recorded_tool_calls : List ToolCall :=
  [⟨"fake_weather_api", "Bangalore", "call_0MyvdnQotPWUwxWrRBSRaeYZ"⟩,
   ⟨"outdoor_seating_availability", "Bangalore", "call_ZbDGmtMhtjnrldpQoyfNmSrc"⟩]

/-- The output the routing loop's lookup-and-invoke produces for one tool call;
only used under the hypothesis that the lookup succeeds (the empty string is an
arbitrary default for the unmapped case). -/
def mapped_output (mapping : List (String × (String → String))) (c : ToolCall) :
    String :=
  match dict_get mapping (py_lower c.name) with
  | some tool => tool c.args
  | none => ""

/-- The five arguments of the notebook's agent-construction call: the tool
list, the LLM, the agent-type selector (`AgentType.ZERO_SHOT_REACT_DESCRIPTION`),
the verbosity flag (`verbose=True`), and the iteration cap (`max_iterations=3`),
in source order. -/
inductive AgentArg
  | tools
  | llm
  | agentType
  | verbose
  | maxIterations
  deriving DecidableEq

/-- The argument list of the agent-construction call in the tools notebook, one
entry per argument (each on its own source line). -/
def agent_config_args : List AgentArg :=
  [AgentArg.tools, AgentArg.llm, AgentArg.agentType, AgentArg.verbose,
   AgentArg.maxIterations]

/-- The `max_iterations=3` value passed by the notebook. -/
def notebook_max_iterations : Nat := 3

/-- Modelled from the spec: the ReAct agent loop (`AgentExecutor`) is
implemented by the external LangChain framework and is absent from this
repository; per the spec it "selects a tool, invokes it, and feeds results back
into the model" and stops at the configured iteration cap.  `step` abstracts one
reason-act iteration, which either transforms the agent state or finishes with
an answer; the loop runs at most the given number of iterations and returns the
number of iterations performed together with the answer, if any. -/
def agent_run {S : Type} (step : S → S ⊕ String) : Nat → S → Nat × Option String
  | 0, _ => (0, none)
  | n + 1, s =>
    match step s with
    | Sum.inr answer => (1, some answer)
    | Sum.inl s2 =>
      let r := agent_run step n s2
      (r.1 + 1, r.2)

/-! ## RAG notebook: `src/unnamed/part_001` -/

/-- A LangChain document: the notebook code only ever reads `page_content`. -/
structure Document where
  page_content : String
  deriving DecidableEq

/-- The notebook's `format_docs`: join the documents' `page_content` with a
blank line. -/
def format_docs (docs : List Document) : String :=
  String.intercalate "\n\n" (docs.map (fun doc => doc.page_content))

/-- The stages of the overview RAG pipeline, one per external call issued:
`loader.load()`, `split_documents`, `Chroma.from_documents` (which embeds the
splits and stores them), retrieval through the retriever, and the LLM
generation. -/
inductive RagEvent
  | load
  | split
  | embed_store
  | retrieve
  | generate
  deriving DecidableEq

/-- The external services the overview RAG cell calls, abstracted: the web
loader, the text splitter, `Chroma.from_documents` (embedding plus storing),
the retriever derived from the store, the pulled `rlm/rag-prompt` template
(rendered on context and question), the chat model, and `StrOutputParser`. -/
structure RagEnv (Store : Type) where
  loader_load : List Document
  split_documents : List Document → List Document
  from_documents : List Document → Store
  as_retriever : Store → String → List Document
  rag_prompt : String → String → String
  llm : String → String
  str_output_parse : String → String

/-- The overview RAG cell of the notebook, in source statement order:
`docs = loader.load()`, `splits = text_splitter.split_documents(docs)`,
`vectorstore = Chroma.from_documents(splits, embedding)`,
`retriever = vectorstore.as_retriever()`, then
`rag_chain.invoke(question)` which pipes the retrieved documents through
`format_docs` into the prompt's context, the prompt into the LLM, and the LLM
output through the string parser.  Alongside the answer it yields the trace of
external calls issued, in order. -/
def rag_overview {Store : Type} (env : RagEnv Store) (question : String) :
    String × List RagEvent :=
  let docs := env.loader_load
  let t1 := [RagEvent.load]
  let splits := env.split_documents docs
  let t2 := t1 ++ [RagEvent.split]
  let store := env.from_documents splits
  let t3 := t2 ++ [RagEvent.embed_store]
  let retrieved := env.as_retriever store question
  let t4 := t3 ++ [RagEvent.retrieve]
  let answer := env.str_output_parse (env.llm (env.rag_prompt (format_docs retrieved) question))
  (answer, t4 ++ [RagEvent.generate])

/-- The rendered `PromptTemplate` of the manual-RAG cell, after
`prompt.format(context=..., query=...)`. -/
def prompt_template_format (context query : String) : String :=
  "Based on the following context, answer the question:\n\n" ++ context ++
    "\n\nQuestion: " ++ query ++ "\nAnswer:"

/-- The manual-RAG cells of the notebook: `docs = db.similarity_search(query)`,
`context = docs[0].page_content` (an `IndexError`, modelled `none`, if nothing
was retrieved), then `llm.invoke(prompt.format(context=context, query=query))`.
The vector store's search and the hosted model are abstract parameters; the
combination of the two through the prompt is the notebook's own code. -/
def manual_rag (similarity_search : String → List Document)
    (llm_invoke : String → String) (query : String) : Option String :=
  match similarity_search query with
  | [] => none
  | doc :: _ => some (llm_invoke (prompt_template_format doc.page_content query))

/-- `np.dot` on two equal-length vectors: sum of pointwise products. -/
def np_dot (vec1 vec2 : List ℝ) : ℝ :=
  (List.zipWith (fun a b => a * b) vec1 vec2).sum

/-- `np.linalg.norm`: the Euclidean norm, the square root of the dot product of
the vector with itself. -/
noncomputable def np_linalg_norm (vec : List ℝ) : ℝ :=
  Real.sqrt (np_dot vec vec)

/-- The notebook's `cosine_similarity(vec1, vec2)`: the dot product divided by
the product of the Euclidean norms, with no guard on the denominator. -/
noncomputable def cosine_similarity (vec1 vec2 : List ℝ) : ℝ :=
  np_dot vec1 vec2 / (np_linalg_norm vec1 * np_linalg_norm vec2)

/-! ## Basics notebook: `src/langchain/1_Basics/1-openai-code.ipynb` -/

/-- `os.getenv(name)` against an abstract process environment (the environment
as it stands after `load_dotenv()`): the variable's value, `none` when unset.
Values are Python strings, modelled as `List Char`. -/
def os_getenv (environ : String → Option (List Char)) (name : String) :
    Option (List Char) :=
  environ name

/-- The key read by the notebooks: `os.getenv("OPENAI_API_KEY")` after
`load_dotenv()`. -/
def load_api_key (environ : String → Option (List Char)) : Option (List Char) :=
  os_getenv environ "OPENAI_API_KEY"

/-- The message printed by the basics notebook's startup check:
`if api_key: print("API key found:", api_key[:4] + "..." + api_key[-4:])
else: print("No API key found")`.  Python truthiness makes both `None` and the
empty string take the `else` branch; `api_key[:4]` is the first at most four
characters and `api_key[-4:]` the last at most four. -/
def api_key_report (api_key : Option (List Char)) : List Char :=
  match api_key with
  | none => "No API key found".toList
  | some key =>
    if key = [] then "No API key found".toList
    else
      "API key found: ".toList ++ key.take 4 ++ "...".toList ++
        key.drop (key.length - 4)

/-! ## Helper lemmas -/

/-- Full input-output characterisation of the routing loop: when every tool
call's lowered name is mapped, it appends exactly one `ToolMessage` per call, in
call order, each carrying the mapped tool's output and the call's id, and
records one invocation per call; when some lowered name is unmapped it fails. -/
theorem run_tool_loop_spec (mapping : List (String × (String → String)))
    (calls : List ToolCall) (messages : List ToolMessage)
    (trace : List (String × String)) :
    run_tool_loop mapping calls messages trace =
      if ∀ c ∈ calls, (dict_get mapping (py_lower c.name)).isSome then
        some (messages ++ calls.map (fun c => ⟨mapped_output mapping c, c.id⟩),
              trace ++ calls.map (fun c => (py_lower c.name, c.args)))
      else none := by
  induction calls generalizing messages trace with
  | nil => simp [run_tool_loop]
  | cons c rest ih =>
    by_cases hc : (dict_get mapping (py_lower c.name)).isSome
    · obtain ⟨tool, htool⟩ := Option.isSome_iff_exists.mp hc
      have hout : mapped_output mapping c = tool c.args := by
        simp [mapped_output, htool]
      rw [run_tool_loop, htool]
      dsimp only
      rw [ih]
      by_cases hrest : ∀ c' ∈ rest, (dict_get mapping (py_lower c'.name)).isSome
      · simp [List.forall_mem_cons, hc, hrest, hout, List.append_assoc]
      · simp [List.forall_mem_cons, hrest]
    · have hnone : dict_get mapping (py_lower c.name) = none :=
        Option.not_isSome_iff_eq_none.mp hc
      rw [run_tool_loop, hnone]
      simp [List.forall_mem_cons, hc]

/-- The agent loop performs at most as many iterations as its fuel. -/
theorem agent_run_le {S : Type} (step : S → S ⊕ String) (n : Nat) (s : S) :
    (agent_run step n s).1 ≤ n := by
  induction n generalizing s with
  | zero => simp [agent_run]
  | succ n ih =>
    rw [agent_run]
    cases step s with
    | inr answer => simp
    | inl s2 => simpa using ih s2

/-- The dot product is nonnegative on the diagonal (a sum of squares). -/
theorem np_dot_self_nonneg (vec : List ℝ) : 0 ≤ np_dot vec vec := by
  rw [np_dot, List.zipWith_same]
  exact List.sum_nonneg (by
    intro x hx
    obtain ⟨a, _, rfl⟩ := List.mem_map.mp hx
    exact mul_self_nonneg a)

/-- The dot product is symmetric. -/
theorem np_dot_comm (vec1 vec2 : List ℝ) : np_dot vec1 vec2 = np_dot vec2 vec1 := by
  induction vec1 generalizing vec2 with
  | nil => cases vec2 <;> simp [np_dot]
  | cons a v ih =>
    cases vec2 with
    | nil => simp [np_dot]
    | cons b w =>
      have h := ih w
      simp only [np_dot, List.zipWith_cons_cons, List.sum_cons] at h ⊢
      rw [mul_comm, h]

/-- The norm of a zero vector is zero. -/
theorem np_linalg_norm_replicate_zero (n : Nat) :
    np_linalg_norm (List.replicate n 0) = 0 := by
  have h : np_dot (List.replicate n 0) (List.replicate n 0) = 0 := by
    rw [np_dot, List.zipWith_same]
    simp
  rw [np_linalg_norm, h, Real.sqrt_zero]

/-! ## Claim theorems -/

/-- Claim C1, counterexample: the claim states that no repository-authored code
maps a tool-call name to a function, invokes it, or appends its result as a tool
message.  The notebook's own routing loop, run on the tool calls recorded in the
notebook, does exactly that: it maps each call's name through `tool_mapping`,
invokes the mapped tool, and appends a `ToolMessage` carrying the tool's output
and the call's id. -/
theorem c1_counterexample :
    run_tool_loop tool_mapping recorded_tool_calls [] [] =
      some ([⟨"Sunny, 22°C", "call_0MyvdnQotPWUwxWrRBSRaeYZ"⟩,
             ⟨"Outdoor seating is available.", "call_ZbDGmtMhtjnrldpQoyfNmSrc"⟩],
            [("fake_weather_api", "Bangalore"),
             ("outdoor_seating_availability", "Bangalore")]) := by
  decide

/-- Claim C1, amended: the tool-calling notebook itself authors the routing of
model tool calls: for a tool call named `fake_weather_api`, the notebook's loop
looks the name up in `tool_mapping`, invokes the repository-authored
`fake_weather_api` function on the call's arguments, and appends its result as a
`ToolMessage` answering that call's id. -/
theorem c1_notebook_routes_tool_calls (c : ToolCall)
    (h : c.name = "fake_weather_api") :
    run_tool_loop tool_mapping [c] [] [] =
      some ([⟨fake_weather_api c.args, c.id⟩], [("fake_weather_api", c.args)]) := by
  obtain ⟨name, args, id⟩ := c
  dsimp only at h
  subst h
  rfl

/-- Witness for C1's amended theorem at a concrete tool call. -/
theorem c1_notebook_routes_tool_calls_witness :
    (ToolCall.mk "fake_weather_api" "Bangalore" "id1").name = "fake_weather_api" ∧
    run_tool_loop tool_mapping [⟨"fake_weather_api", "Bangalore", "id1"⟩] [] [] =
      some ([⟨fake_weather_api "Bangalore", "id1"⟩],
            [("fake_weather_api", "Bangalore")]) :=
  ⟨rfl, c1_notebook_routes_tool_calls ⟨"fake_weather_api", "Bangalore", "id1"⟩ rfl⟩

/-- Claim C2, counterexample: the claim states that no algorithm computing a
similarity score between two vectors is implemented by code authored in this
codebase.  The RAG notebook's own `cosine_similarity` is such an algorithm: on
concrete vectors it computes the cosine similarity (1 for identical directions,
0 for orthogonal ones). -/
theorem c2_counterexample :
    cosine_similarity [(1 : ℝ), 0] [1, 0] = 1 ∧
    cosine_similarity [(1 : ℝ), 0] [0, 1] = 0 := by
  have h1 : np_dot [(1 : ℝ), 0] [1, 0] = 1 := by simp [np_dot]
  have h2 : np_dot [(1 : ℝ), 0] [0, 1] = 0 := by simp [np_dot]
  have h3 : np_linalg_norm [(1 : ℝ), 0] = 1 := by
    rw [np_linalg_norm, h1, Real.sqrt_one]
  constructor
  · simp only [cosine_similarity]
    rw [h1, h3]
    norm_num
  · simp only [cosine_similarity]
    rw [h2]
    simp

/-- Claim C2, amended: similarity search over the vector store is delegated to
Chroma, but the RAG notebook additionally authors its own `cosine_similarity`
function, a genuine similarity measure on embedding vectors: it is symmetric,
and every vector with nonzero dot square has similarity 1 with itself. -/
theorem c2_cosine_similarity_authored (vec1 vec2 : List ℝ)
    (h : np_dot vec1 vec1 ≠ 0) :
    cosine_similarity vec1 vec1 = 1 ∧
    cosine_similarity vec1 vec2 = cosine_similarity vec2 vec1 := by
  constructor
  · simp only [cosine_similarity, np_linalg_norm]
    rw [Real.mul_self_sqrt (np_dot_self_nonneg vec1)]
    exact div_self h
  · simp only [cosine_similarity]
    rw [np_dot_comm vec1 vec2,
      mul_comm (np_linalg_norm vec1) (np_linalg_norm vec2)]

/-- Witness for C2's amended theorem at concrete vectors. -/
theorem c2_cosine_similarity_authored_witness :
    np_dot [(1 : ℝ), 0] [1, 0] ≠ 0 ∧
    (cosine_similarity [(1 : ℝ), 0] [1, 0] = 1 ∧
     cosine_similarity [(1 : ℝ), 0] [0, 1] = cosine_similarity [0, 1] [1, 0]) := by
  have h : np_dot [(1 : ℝ), 0] [1, 0] ≠ 0 := by simp [np_dot]
  exact ⟨h, c2_cosine_similarity_authored [1, 0] [0, 1] h⟩

/-- Claim C3: the overview RAG pipeline issues exactly five external calls in
the fixed order load, split, embed-and-store (the single `Chroma.from_documents`
call embeds the splits and stores them), retrieve, generate; the documents that
are split are the loaded ones, the store is built from the splits, retrieval
happens against that store, and the generation call's context is the formatted
retrieved splits.  The only repository-authored step in the chain is
`format_docs`, a join of page contents. -/
theorem c3_rag_pipeline_order {Store : Type} (env : RagEnv Store)
    (question : String) :
    rag_overview env question =
      (env.str_output_parse (env.llm (env.rag_prompt
          (format_docs (env.as_retriever
            (env.from_documents (env.split_documents env.loader_load)) question))
          question)),
        [RagEvent.load, RagEvent.split, RagEvent.embed_store, RagEvent.retrieve,
          RagEvent.generate]) ∧
    (rag_overview env question).2.length = 5 :=
  ⟨rfl, rfl⟩

/-- Claim C4, counterexample: the claim states the agent is invoked with exactly
three lines of configuration (tool list, iteration cap, verbosity flag).  The
notebook's agent-construction call passes five arguments, each on its own line:
it additionally passes the LLM and the agent-type selector. -/
theorem c4_counterexample :
    agent_config_args.length = 5 ∧ agent_config_args.length ≠ 3 ∧
    AgentArg.llm ∈ agent_config_args ∧ AgentArg.agentType ∈ agent_config_args :=
  ⟨rfl, by decide, by decide, by decide⟩

/-- Claim C4, amended: the ReAct agent loop is implemented by the external
framework (modelled here from the spec) and the notebook configures it with five
arguments (tool list, LLM, agent type, verbosity flag, iteration cap); with the
notebook's `max_iterations=3`, every run performs at most 3 reason-act
iterations before stopping. -/
theorem c4_agent_iterations_bounded {S : Type} (step : S → S ⊕ String) (s : S) :
    notebook_max_iterations = 3 ∧
    (agent_run step notebook_max_iterations s).1 ≤ 3 :=
  ⟨rfl, agent_run_le step 3 s⟩

/-- Claim C5, counterexample: the claim states that no repository-authored code
combines a retrieval step over a document store with a generative model call.
The manual-RAG cells of the RAG notebook do exactly that: with the vector
store's search and the model abstracted, the notebook code retrieves, formats
the first retrieved document into its prompt template, and invokes the model on
that prompt. -/
theorem c5_counterexample :
    manual_rag (fun _ => [⟨"CTX"⟩]) (fun p => p) "Q" =
      some "Based on the following context, answer the question:\n\nCTX\n\nQuestion: Q\nAnswer:" :=
  rfl

/-- Claim C5, amended: besides the pre-built `rag_chain`, the RAG notebook
authors its own retrieval-plus-generation glue: whenever the vector store's
search returns a nonempty document list, the notebook code invokes the model on
its prompt template rendered with the first retrieved document's content and the
query. -/
theorem c5_manual_rag_combines (similarity_search : String → List Document)
    (llm_invoke : String → String) (query : String) (doc : Document)
    (rest : List Document) (h : similarity_search query = doc :: rest) :
    manual_rag similarity_search llm_invoke query =
      some (llm_invoke (prompt_template_format doc.page_content query)) := by
  unfold manual_rag
  rw [h]

/-- Witness for C5's amended theorem at a concrete store and query. -/
theorem c5_manual_rag_combines_witness :
    (fun _ : String => [(⟨"A"⟩ : Document)]) "B" = (⟨"A"⟩ : Document) :: [] ∧
    manual_rag (fun _ => [(⟨"A"⟩ : Document)]) (fun p => p) "B" =
      some (prompt_template_format "A" "B") :=
  ⟨rfl, c5_manual_rag_combines _ _ _ ⟨"A"⟩ [] rfl⟩

/-- Claim C6, counterexample: the claim states that no repository-authored
control flow (loop or conditional branch) alters the order in which calls are
issued.  The tools notebook's `for` loop over `result.tool_calls` issues one
tool invocation per iteration: on the notebook's recorded tool calls it issues
the two invocations in list order, and on the reversed list it issues them in
the reversed order — the order of the issued calls is determined by the
notebook's own loop. -/
theorem c6_counterexample :
    (run_tool_loop tool_mapping recorded_tool_calls [] []).map Prod.snd =
      some [("fake_weather_api", "Bangalore"),
            ("outdoor_seating_availability", "Bangalore")] ∧
    (run_tool_loop tool_mapping recorded_tool_calls.reverse [] []).map Prod.snd =
      some [("outdoor_seating_availability", "Bangalore"),
            ("fake_weather_api", "Bangalore")] ∧
    [("fake_weather_api", "Bangalore"),
     ("outdoor_seating_availability", "Bangalore")] ≠
      [("outdoor_seating_availability", "Bangalore"),
       ("fake_weather_api", "Bangalore")] :=
  ⟨by decide, by decide, by decide⟩

/-- Claim C6, amended: each notebook's cells run top to bottom, but the tools
notebook contains a repository-authored `for` loop whose iteration issues the
tool invocations: whenever every tool call's lowered name is mapped, the loop
issues exactly one invocation per entry of the tool-call list, in list order,
on that call's arguments.  (The basics notebook's conditional on the API key
only selects which message is printed.) -/
theorem c6_loop_determines_call_order (calls : List ToolCall)
    (messages : List ToolMessage) (trace : List (String × String))
    (h : ∀ c ∈ calls, (dict_get tool_mapping (py_lower c.name)).isSome) :
    (run_tool_loop tool_mapping calls messages trace).map Prod.snd =
      some (trace ++ calls.map (fun c => (py_lower c.name, c.args))) := by
  rw [run_tool_loop_spec, if_pos h]
  rfl

/-- Witness for C6's amended theorem at a concrete tool-call list. -/
theorem c6_loop_determines_call_order_witness :
    (∀ c ∈ [(⟨"OUTDOOR_seating_availability", "Paris", "id9"⟩ : ToolCall)],
        (dict_get tool_mapping (py_lower c.name)).isSome) ∧
    (run_tool_loop tool_mapping
        [(⟨"OUTDOOR_seating_availability", "Paris", "id9"⟩ : ToolCall)] []
        []).map Prod.snd =
      some ([] ++
        [(⟨"OUTDOOR_seating_availability", "Paris", "id9"⟩ : ToolCall)].map
          (fun c => (py_lower c.name, c.args))) ∧
    ([] ++
        [(⟨"OUTDOOR_seating_availability", "Paris", "id9"⟩ : ToolCall)].map
          (fun c => (py_lower c.name, c.args))) =
      [("outdoor_seating_availability", "Paris")] :=
  ⟨by decide,
   c6_loop_determines_call_order
     [⟨"OUTDOOR_seating_availability", "Paris", "id9"⟩] [] [] (by decide),
   by decide⟩

/-- Claim C7: each notebook's credential handling reads the key from the
process environment: the key used is exactly the value of `OPENAI_API_KEY` in
the environment left by `load_dotenv()`, it is `None` when the variable is
unset, and the key obtained depends on nothing but that variable's value (in
particular no key is hard-coded: two environments agreeing on `OPENAI_API_KEY`
yield the same key). -/
theorem c7_api_key_from_env (environ : String → Option (List Char)) :
    load_api_key environ = environ "OPENAI_API_KEY" ∧
    (environ "OPENAI_API_KEY" = none → load_api_key environ = none) ∧
    ∀ environ2 : String → Option (List Char),
      environ "OPENAI_API_KEY" = environ2 "OPENAI_API_KEY" →
      load_api_key environ = load_api_key environ2 :=
  ⟨rfl, fun h => h, fun _ h => h⟩

/-- Witness for C7 at concrete environments. -/
theorem c7_api_key_from_env_witness :
    load_api_key (fun _ => none) = none ∧
    load_api_key (fun n => if n = "OPENAI_API_KEY" then some ['k'] else none) =
      load_api_key (fun _ => some ['k']) :=
  ⟨(c7_api_key_from_env (fun _ => none)).2.1 rfl,
   (c7_api_key_from_env
      (fun n => if n = "OPENAI_API_KEY" then some ['k'] else none)).2.2
     (fun _ => some ['k']) rfl⟩

/-- Claim C8: for every pair of vectors, `cosine_similarity` returns the dot
product divided by the product of the Euclidean norms, with no guard on the
denominator — in particular that is what it returns on every pair whose norms
are both nonzero, where the value multiplied back by the denominator recovers
the dot product — and whenever either argument is the zero vector the
denominator of that division is zero, so the division-by-zero case is reachable
at the function's interface. -/
theorem c8_cosine_similarity_unguarded (vec1 vec2 : List ℝ) :
    cosine_similarity vec1 vec2 =
      np_dot vec1 vec2 / (np_linalg_norm vec1 * np_linalg_norm vec2) ∧
    (np_linalg_norm vec1 ≠ 0 → np_linalg_norm vec2 ≠ 0 →
      cosine_similarity vec1 vec2 * (np_linalg_norm vec1 * np_linalg_norm vec2) =
        np_dot vec1 vec2) ∧
    (vec1 = List.replicate vec1.length 0 →
      np_linalg_norm vec1 * np_linalg_norm vec2 = 0) ∧
    (vec2 = List.replicate vec2.length 0 →
      np_linalg_norm vec1 * np_linalg_norm vec2 = 0) := by
  refine ⟨rfl, fun h1 h2 => ?_, fun h => ?_, fun h => ?_⟩
  · simp only [cosine_similarity]
    exact div_mul_cancel₀ _ (mul_ne_zero h1 h2)
  · rw [h, np_linalg_norm_replicate_zero, zero_mul]
  · rw [h, np_linalg_norm_replicate_zero, mul_zero]

/-- Witness for C8: the nonzero-norm division fact at `[1,0]`, `[0,1]`, and the
zero denominator at the zero vector in either argument position. -/
theorem c8_cosine_similarity_unguarded_witness :
    (np_linalg_norm [(1 : ℝ), 0] ≠ 0 ∧ np_linalg_norm [(0 : ℝ), 1] ≠ 0 ∧
      cosine_similarity [(1 : ℝ), 0] [0, 1] *
          (np_linalg_norm [(1 : ℝ), 0] * np_linalg_norm [(0 : ℝ), 1]) =
        np_dot [(1 : ℝ), 0] [0, 1]) ∧
    ([(0 : ℝ), 0] = List.replicate ([(0 : ℝ), 0]).length 0 ∧
      np_linalg_norm [(0 : ℝ), 0] * np_linalg_norm [(3 : ℝ), 4] = 0) ∧
    np_linalg_norm [(3 : ℝ), 4] * np_linalg_norm [(0 : ℝ), 0] = 0 := by
  have hd1 : np_dot [(1 : ℝ), 0] [1, 0] = 1 := by simp [np_dot]
  have hd2 : np_dot [(0 : ℝ), 1] [0, 1] = 1 := by simp [np_dot]
  have h1 : np_linalg_norm [(1 : ℝ), 0] ≠ 0 := by
    rw [np_linalg_norm, hd1, Real.sqrt_one]
    exact one_ne_zero
  have h2 : np_linalg_norm [(0 : ℝ), 1] ≠ 0 := by
    rw [np_linalg_norm, hd2, Real.sqrt_one]
    exact one_ne_zero
  exact ⟨⟨h1, h2, (c8_cosine_similarity_unguarded [1, 0] [0, 1]).2.1 h1 h2⟩,
    ⟨rfl, (c8_cosine_similarity_unguarded [0, 0] [3, 4]).2.2.1 rfl⟩,
    (c8_cosine_similarity_unguarded [3, 4] [0, 0]).2.2.2 rfl⟩

/-- Claim C9: the manual routing loop preserves the pairing and order
invariant: when every tool call's lowered name is a key of the mapping, it
appends exactly one `ToolMessage` per entry of the tool-call list, in the same
order, each with the id of the call it answers and the output of invoking the
mapped tool on that call's arguments; and whenever some lowered name is not a
key, the lookup — and with it the loop — fails. -/
theorem c9_tool_loop_pairing (mapping : List (String × (String → String)))
    (calls : List ToolCall) (messages : List ToolMessage)
    (trace : List (String × String)) :
    run_tool_loop mapping calls messages trace =
      if ∀ c ∈ calls, (dict_get mapping (py_lower c.name)).isSome then
        some (messages ++ calls.map (fun c => ⟨mapped_output mapping c, c.id⟩),
              trace ++ calls.map (fun c => (py_lower c.name, c.args)))
      else none :=
  run_tool_loop_spec mapping calls messages trace

/-- Claim C10: the startup check never reveals the full key: the unset case
prints `No API key found`, and in the set case the printed message is a
function of the key's first four and last four characters alone — any two keys
agreeing on those slices produce identical output. -/
theorem c10_api_key_redaction :
    api_key_report none = "No API key found".toList ∧
    ∀ s t : List Char, s.take 4 = t.take 4 →
      s.drop (s.length - 4) = t.drop (t.length - 4) →
      api_key_report (some s) = api_key_report (some t) := by
  refine ⟨rfl, fun s t h1 h2 => ?_⟩
  by_cases hs : s = []
  · subst hs
    have ht : t = [] := by
      have h4 : t.take 4 = [] := h1.symm
      rcases List.take_eq_nil_iff.mp h4 with h | h
      · omega
      · exact h
    subst ht
    rfl
  · have ht : t ≠ [] := by
      intro hte
      subst hte
      have h4 : s.take 4 = [] := h1
      rcases List.take_eq_nil_iff.mp h4 with h | h
      · omega
      · exact hs h
    simp only [api_key_report, if_neg hs, if_neg ht, h1, h2]

/-- Witness for C10 at two concrete keys sharing first and last four
characters. -/
theorem c10_api_key_redaction_witness :
    api_key_report none = "No API key found".toList ∧
    ("sk-pAAAA2mkA".toList.take 4 = "sk-pBBBB2mkA".toList.take 4) ∧
    api_key_report (some "sk-pAAAA2mkA".toList) =
      api_key_report (some "sk-pBBBB2mkA".toList) :=
  ⟨c10_api_key_redaction.1, by decide,
   c10_api_key_redaction.2 "sk-pAAAA2mkA".toList "sk-pBBBB2mkA".toList
     (by decide) (by decide)⟩
